import Mathlib

/-
Verification of the campaign-provisioning and activation-scheduling core.

The Python source is shallowly embedded: each remote call site is driven by
an oracle value describing that call's outcome (an id on success, `none` /
an error message when the call raises), JSON dict stores become
association lists from string keys to records, and timestamps become
naturals (UTC wall clock) or integers (civil-time axis).  Control flow —
step ordering, the accumulator of created ids, the try/except handlers,
and the store writes — is translated one-to-one from the source.
-/

/- ---------------------------------------------------------------------
   Keyed stores (Python dicts persisted as JSON files).
   `storeFind` is dict lookup, `storeSet` is dict assignment (update the
   existing key in place, else append — insertion order preserved), and
   `findEntry` is the first-match scan `for key, entry in d.items(): ...`.
   --------------------------------------------------------------------- -/

def storeFind {α : Type} : List (String × α) → String → Option α
  | [], _ => none
  | (k2, v) :: rest, k => if k2 = k then some v else storeFind rest k

def storeSet {α : Type} : List (String × α) → String → α → List (String × α)
  | [], k, v => [(k, v)]
  | (k2, w) :: rest, k, v =>
      if k2 = k then (k, v) :: rest else (k2, w) :: storeSet rest k v

def findEntry {α : Type} (p : α → Bool) : List (String × α) → Option (String × α)
  | [] => none
  | (k, e) :: rest => if p e then some (k, e) else findEntry p rest

/- ---------------------------------------------------------------------
   meta/validator.py: validate_account_id — account id must be
   "act_" followed by a non-empty numeric string.  The Python string
   tests startswith / slicing / isdigit are modelled on the string's
   character list (structural recursion, so concrete runs evaluate).
   --------------------------------------------------------------------- -/

def startsWithChars : List Char → List Char → Bool
  | _, [] => true
  | [], _ :: _ => false
  | c :: cs, d :: ds => c == d && startsWithChars cs ds

def allDigits : List Char → Bool
  | [] => true
  | c :: cs => c.isDigit && allDigits cs

def validate_account_id (account_id : String) : Bool :=
  startsWithChars account_id.data "act_".data &&
    !(account_id.data.drop 4).isEmpty &&
    allDigits (account_id.data.drop 4)

/- ---------------------------------------------------------------------
   meta/campaign.py: create_advantage_plus_campaign.

   A `StepOracle` gives the outcome of each of the five remote creation
   steps (`some id` — the call returned an id; `none` — the call raised:
   platform rejection, transport failure, or a response without an id,
   all of which surface as exceptions at this level).  `created_ids` is
   the mutable accumulator dict; the catch-all handler re-raises
   `CampaignCreationError` whose message embeds the accumulated ids,
   modelled by carrying them structurally in the error.
   Parameter assembly for each step (pure data derived from the config)
   does not influence which ids are accumulated and is elided.
   --------------------------------------------------------------------- -/

structure StepOracle where
  uploadVideo : Option String
  createCreative : Option String
  createCampaign : Option String
  createAdset : Option String
  createAd : Option String
deriving DecidableEq

structure CreatedIds where
  video_id : Option String := none
  creative_id : Option String := none
  campaign_id : Option String := none
  adset_id : Option String := none
  ad_id : Option String := none
deriving DecidableEq

inductive PipelineError where
  | campaignCreationError (msg : String) (created : CreatedIds)
deriving DecidableEq

def create_advantage_plus_campaign (o : StepOracle) (account_id : String) :
    Except PipelineError CreatedIds :=
  let ids0 : CreatedIds := {}
  if !(validate_account_id account_id) then
    .error (.campaignCreationError "Invalid account ID format" ids0)
  else
    match o.uploadVideo with
    | none => .error (.campaignCreationError "Video upload failed" ids0)
    | some vid =>
      let ids1 := { ids0 with video_id := some vid }
      match o.createCreative with
      | none => .error (.campaignCreationError "Failed to create video creative" ids1)
      | some cr =>
        let ids2 := { ids1 with creative_id := some cr }
        match o.createCampaign with
        | none => .error (.campaignCreationError "Failed to create campaign" ids2)
        | some cid =>
          let ids3 := { ids2 with campaign_id := some cid }
          match o.createAdset with
          | none => .error (.campaignCreationError "Failed to create adset" ids3)
          | some asid =>
            let ids4 := { ids3 with adset_id := some asid }
            match o.createAd with
            | none => .error (.campaignCreationError "Failed to create ad" ids4)
            | some adid => .ok { ids4 with ad_id := some adid }

/-- The ids form a gap-free chain in dependency order: a later kind is
present only when every earlier kind is present. -/
def gapFreeChain (ids : CreatedIds) : Bool :=
  (!ids.creative_id.isSome || ids.video_id.isSome) &&
  (!ids.campaign_id.isSome || ids.creative_id.isSome) &&
  (!ids.adset_id.isSome || ids.campaign_id.isSome) &&
  (!ids.ad_id.isSome || ids.adset_id.isSome)

/-- All five kinds are present. -/
def completeChain (ids : CreatedIds) : Bool :=
  ids.video_id.isSome && ids.creative_id.isSome && ids.campaign_id.isSome &&
    ids.adset_id.isSome && ids.ad_id.isSome

/- ---------------------------------------------------------------------
   api/routes.py: create_campaign handler (campaign-record persistence).

   Only on pipeline success is the CampaignRecord written to the
   campaigns store; the `except (MetaAPIError, CampaignCreationError)`
   arm turns a pipeline failure into an HTTP 500 carrying the pipeline
   error, with no store write (the handler raises before reaching the
   save).  The auto-scheduling tail, reached only after the persist on
   success, is elided here (modelled separately for the scheduling
   claims).  Record fields not touched by any claim (account ids,
   config_path) are elided.
   --------------------------------------------------------------------- -/

structure CampaignRecord where
  status : String
  campaign_name : String := ""
  daily_budget : Option Nat := none
  created_at : Option Nat := none
  activated_at : Option Nat := none
  last_synced : Option Nat := none
  meta_ids : CreatedIds := {}
deriving DecidableEq

def create_campaign_route (campaigns : List (String × CampaignRecord))
    (o : StepOracle) (account_id campaign_id campaign_name : String) (now : Nat) :
    List (String × CampaignRecord) × Except PipelineError CreatedIds :=
  match create_advantage_plus_campaign o account_id with
  | .error e => (campaigns, .error e)
  | .ok ids =>
      let record : CampaignRecord :=
        { status := "PAUSED", campaign_name := campaign_name,
          created_at := some now, meta_ids := ids }
      (storeSet campaigns campaign_id record, .ok ids)

/- ---------------------------------------------------------------------
   Concrete data for witnesses: the spec scenario where asset and
   creative succeed and the campaign step fails.
   --------------------------------------------------------------------- -/

def oracleFailAtCampaign : StepOracle :=
  { uploadVideo := some "vid1", createCreative := some "cr1",
    createCampaign := none, createAdset := some "as1", createAd := some "ad1" }

def idsAssetCreative : CreatedIds :=
  { video_id := some "vid1", creative_id := some "cr1" }

/- ---------------------------------------------------------------------
   Python datetimes.  A naive datetime is a bare civil-time instant; an
   aware one carries a UTC offset (both in minutes).  Comparison between
   a naive and an aware datetime raises TypeError in Python, modelled by
   `none`.  pytz Asia/Singapore resolves to the fixed +08:00 offset for
   every instant this system schedules (the spec's fixed civil offset);
   `localizeSingapore` is the manager's tzinfo-is-None guard plus
   localize call.
   --------------------------------------------------------------------- -/

inductive PyDateTime where
  | naive (t : Int)
  | aware (t : Int) (offset : Int)
deriving DecidableEq

def pyCompareLE : PyDateTime → PyDateTime → Option Bool
  | .naive a, .naive b => some (decide (a ≤ b))
  | .aware a oa, .aware b ob => some (decide (a - oa ≤ b - ob))
  | _, _ => none

def singaporeOffset : Int := 480

def localizeSingapore : PyDateTime → PyDateTime
  | .naive t => .aware t singaporeOffset
  | .aware t o => .aware t o

/- ---------------------------------------------------------------------
   scheduler/manager.py: schedule_campaign_activation — localize a naive
   activation instant to Asia/Singapore, then add a date-trigger job
   (replace_existing=True) and return the job id.  The APScheduler job
   table is modelled as a store of armed one-shot timers.
   --------------------------------------------------------------------- -/

structure ArmedJob where
  campaign_id : String
  meta_campaign_id : String
  run_date : PyDateTime
deriving DecidableEq

def schedule_campaign_activation (timers : List (String × ArmedJob))
    (job_id campaign_id meta_campaign_id : String) (activate_at : PyDateTime) :
    List (String × ArmedJob) × String :=
  let activate2 := localizeSingapore activate_at
  (storeSet timers job_id
    { campaign_id := campaign_id, meta_campaign_id := meta_campaign_id,
      run_date := activate2 },
   job_id)

/- ---------------------------------------------------------------------
   storage schema of schedules.json entries (api/routes.py and
   scheduler/jobs.py write these dicts).
   --------------------------------------------------------------------- -/

structure ScheduleEntry where
  campaign_id : String
  meta_campaign_id : String := ""
  scheduled_time : PyDateTime := .naive 0
  status : String
  created_at : Nat := 0
  executed_at : Option Nat := none
  result : Option String := none
  error : Option String := none
  cancelled_at : Option Nat := none
deriving DecidableEq

inductive RouteError where
  | notFound (msg : String)
  | badRequest (msg : String)
  | serverError (msg : String)
deriving DecidableEq

/- ---------------------------------------------------------------------
   api/routes.py: schedule_campaign — 404 when the campaign is unknown;
   then the future check `activate_at <= datetime.now()` (naive now, so
   an aware activate_at raises TypeError, caught by the blanket handler
   as a 500); on success the timer is armed and a pending entry is
   written.  (`meta_ids` lookup is modelled with a default for a record
   missing the pipeline id, which persisted records always carry.)
   --------------------------------------------------------------------- -/

def schedule_campaign_route (campaigns : List (String × CampaignRecord))
    (schedules : List (String × ScheduleEntry)) (timers : List (String × ArmedJob))
    (campaign_id : String) (activate_at : PyDateTime) (now : Int) (nowUtc : Nat)
    (job_id : String) :
    List (String × ScheduleEntry) × List (String × ArmedJob) × Except RouteError String :=
  match storeFind campaigns campaign_id with
  | none => (schedules, timers, .error (.notFound "Campaign not found"))
  | some record =>
    match pyCompareLE activate_at (.naive now) with
    | none =>
        (schedules, timers,
          .error (.serverError "cannot compare offset-naive and offset-aware datetimes"))
    | some true =>
        (schedules, timers,
          .error (.badRequest "Scheduled activation time must be in the future"))
    | some false =>
        let meta_cid := record.meta_ids.campaign_id.getD ""
        let timers2 :=
          (schedule_campaign_activation timers job_id campaign_id meta_cid activate_at).1
        let entry : ScheduleEntry :=
          { campaign_id := campaign_id, meta_campaign_id := meta_cid,
            scheduled_time := activate_at, status := "pending",
            created_at := nowUtc, executed_at := none, error := none }
        (storeSet schedules job_id entry, timers2, .ok job_id)

/- ---------------------------------------------------------------------
   api/routes.py: cancel_schedule — find the first schedules entry for
   the campaign whose status is pending (404 if none), ask the scheduler
   to remove the timer (`cancelOk`), and only on success mark the entry
   cancelled; a failed removal is a 500 with the store unchanged.
   --------------------------------------------------------------------- -/

def cancel_schedule_route (schedules : List (String × ScheduleEntry))
    (campaign_id : String) (cancelOk : Bool) (now : Nat) :
    List (String × ScheduleEntry) × Except RouteError String :=
  match findEntry
      (fun e => e.campaign_id == campaign_id && e.status == "pending") schedules with
  | none => (schedules, .error (.notFound "No pending schedule found"))
  | some (job_id, entry) =>
      if cancelOk then
        (storeSet schedules job_id
          { entry with status := "cancelled", cancelled_at := some now },
         .ok job_id)
      else (schedules, .error (.serverError "Failed to cancel job"))

/- ---------------------------------------------------------------------
   meta/client.py: get_campaign field projection, as consumed by
   sync_campaign_from_meta (each field may be absent from the response).
   --------------------------------------------------------------------- -/

structure FetchedCampaign where
  name : Option String := none
  status : Option String := none
  daily_budget : Option Nat := none
  updated_time : Option String := none
deriving DecidableEq

/- ---------------------------------------------------------------------
   api/routes.py: sync_campaign — the `updates` dict always carries
   status, campaign_name (falling back to the stored values when the
   fetch response omits them) and a fresh last_synced stamp, and carries
   daily_budget exactly when the response has one; the record is updated
   with these fields, persisted, and `updates` is returned as `changes`.
   The fetched updated_time is never applied.
   --------------------------------------------------------------------- -/

structure SyncChanges where
  status : String
  campaign_name : String
  last_synced : Nat
  daily_budget : Option Nat
deriving DecidableEq

def sync_campaign_route (campaigns : List (String × CampaignRecord))
    (campaign_id : String) (fetchResult : Except String FetchedCampaign) (now : Nat) :
    List (String × CampaignRecord) × Except RouteError SyncChanges :=
  match storeFind campaigns campaign_id with
  | none => (campaigns, .error (.notFound "Campaign not found"))
  | some record =>
    match fetchResult with
    | .error msg => (campaigns, .error (.serverError msg))
    | .ok meta_data =>
        let updates : SyncChanges :=
          { status := meta_data.status.getD record.status,
            campaign_name := meta_data.name.getD record.campaign_name,
            last_synced := now,
            daily_budget := meta_data.daily_budget }
        let record2 := { record with
          status := updates.status,
          campaign_name := updates.campaign_name,
          last_synced := some now,
          daily_budget :=
            match meta_data.daily_budget with
            | some b => some b
            | none => record.daily_budget }
        (storeSet campaigns campaign_id record2, .ok updates)

/- ---------------------------------------------------------------------
   scheduler/jobs.py: activate_campaign_job.

   The oracle carries the outcome of each fallible operation in the
   task body: the remote status update, the remote sync fetch, and the
   three possible store saves (campaigns.json in the try block,
   schedules.json in the try block, schedules.json inside the except
   handler).  The persisted stores change only when the corresponding
   save succeeds.  The handler marks the located schedule entry failed
   (status, result, error, executed_at all overwritten, so reaching the
   handler after the completed-mark save failed leaves the same entry
   as marking the original) and re-raises; `raised` records the
   propagated exception message, if any.
   --------------------------------------------------------------------- -/

structure ActivationOracle where
  updateStatusError : Option String := none
  syncResult : Except String FetchedCampaign := .ok {}
  campaignsSaveError : Option String := none
  schedulesSaveError : Option String := none
  failureSaveError : Option String := none

structure JobRun where
  campaigns : List (String × CampaignRecord)
  schedules : List (String × ScheduleEntry)
  raised : Option String
deriving DecidableEq

def markFailedEntry (e : ScheduleEntry) (msg : String) (now : Nat) : ScheduleEntry :=
  { e with
    status := "failed",
    executed_at := some now,
    result := some "failed",
    error := some msg }

def markCompletedEntry (e : ScheduleEntry) (now : Nat) : ScheduleEntry :=
  { e with
    status := "completed",
    executed_at := some now,
    result := some "success" }

def findScheduleFor (schedules : List (String × ScheduleEntry))
    (campaign_id : String) : Option String :=
  (findEntry (fun e => e.campaign_id == campaign_id) schedules).map Prod.fst

def activationFailure (o : ActivationOracle) (now : Nat)
    (campaigns : List (String × CampaignRecord))
    (schedules : List (String × ScheduleEntry))
    (schedule_key : Option String) (msg : String) : JobRun :=
  match schedule_key with
  | none => { campaigns := campaigns, schedules := schedules, raised := some msg }
  | some k =>
    match storeFind schedules k with
    | none => { campaigns := campaigns, schedules := schedules, raised := some msg }
    | some e =>
      match o.failureSaveError with
      | none =>
          { campaigns := campaigns,
            schedules := storeSet schedules k (markFailedEntry e msg now),
            raised := some msg }
      | some smsg =>
          { campaigns := campaigns, schedules := schedules, raised := some smsg }

def completeSchedules (o : ActivationOracle) (now : Nat)
    (campaigns : List (String × CampaignRecord))
    (schedules : List (String × ScheduleEntry))
    (schedule_key : Option String) : JobRun :=
  match schedule_key with
  | none => { campaigns := campaigns, schedules := schedules, raised := none }
  | some k =>
    match storeFind schedules k with
    | none => { campaigns := campaigns, schedules := schedules, raised := none }
    | some e =>
      match o.schedulesSaveError with
      | none =>
          { campaigns := campaigns,
            schedules := storeSet schedules k (markCompletedEntry e now),
            raised := none }
      | some msg => activationFailure o now campaigns schedules (some k) msg

def activate_campaign_job (o : ActivationOracle) (now : Nat)
    (campaigns : List (String × CampaignRecord))
    (schedules : List (String × ScheduleEntry))
    (campaign_id meta_campaign_id : String) : JobRun :=
  let schedule_key := findScheduleFor schedules campaign_id
  match o.updateStatusError with
  | some msg => activationFailure o now campaigns schedules schedule_key msg
  | none =>
    match o.syncResult with
    | .error msg => activationFailure o now campaigns schedules schedule_key msg
    | .ok meta_data =>
      match storeFind campaigns campaign_id with
      | some record =>
          let record2 := { record with
            status := meta_data.status.getD "ACTIVE",
            activated_at := some now, last_synced := some now }
          match o.campaignsSaveError with
          | some msg => activationFailure o now campaigns schedules schedule_key msg
          | none =>
              completeSchedules o now (storeSet campaigns campaign_id record2)
                schedules schedule_key
      | none => completeSchedules o now campaigns schedules schedule_key

/- ---------------------------------------------------------------------
   meta/client.py: upload_video under its tenacity decorator.

   One attempt of the body can end five ways; every failing way is
   raised out of the body as MetaAPIError because the body's blanket
   `except Exception` (and the FileNotFoundError arm) wrap it — in
   particular a transport failure (requests RequestException) leaves
   the body as MetaAPIError, not RequestException.  The decorator is
   stop_after_attempt(3) with
   retry_if_exception_type(requests.exceptions.RequestException).
   --------------------------------------------------------------------- -/

inductive UploadOutcome where
  | ok (id : String)
  | transportError (msg : String)
  | apiError (msg : String)
  | fileNotFound (path : String)
  | missingId
deriving DecidableEq

inductive PyExc where
  | metaAPIError (msg : String)
  | requestException (msg : String)
deriving DecidableEq

def upload_video_body : UploadOutcome → Except PyExc String
  | .ok i => .ok i
  | .transportError m => .error (.metaAPIError ("Video upload failed: " ++ m))
  | .apiError m => .error (.metaAPIError ("Video upload failed: " ++ m))
  | .fileNotFound p => .error (.metaAPIError ("Video file not found: " ++ p))
  | .missingId => .error (.metaAPIError "Video upload failed: No video ID in response")

def retryOnRequestException : PyExc → Bool
  | .requestException _ => true
  | .metaAPIError _ => false

def tenacityRetryAux (shouldRetry : PyExc → Bool)
    (body : Nat → Except PyExc String) : Nat → Nat → Nat × Except PyExc String
  | attempt, 0 => (attempt, .error (.metaAPIError "retry budget exhausted"))
  | attempt, fuel + 1 =>
    match body attempt with
    | .ok v => (attempt + 1, .ok v)
    | .error e =>
        if shouldRetry e && decide (0 < fuel) then
          tenacityRetryAux shouldRetry body (attempt + 1) fuel
        else (attempt + 1, .error e)

def upload_video (outcomes : Nat → UploadOutcome) : Nat × Except PyExc String :=
  tenacityRetryAux retryOnRequestException (fun i => upload_video_body (outcomes i)) 0 3

/- ---------------------------------------------------------------------
   meta/client.py: update_campaign_status — the status whitelist check
   happens before the HTTP call; the Bool result records whether the
   remote call was issued at all.
   --------------------------------------------------------------------- -/

def valid_statuses : List String := ["ACTIVE", "PAUSED", "ARCHIVED"]

def update_campaign_status_client (status : String) (remote : Except String Unit) :
    Bool × Except PyExc Unit :=
  if valid_statuses.contains status then
    match remote with
    | .ok _ => (true, .ok ())
    | .error m =>
        (true, .error (.metaAPIError ("Failed to update campaign status: " ++ m)))
  else
    (false, .error (.metaAPIError ("Invalid status: " ++ status ++
      ". Must be ACTIVE, PAUSED, or ARCHIVED")))

/- ---------------------------------------------------------------------
   Concrete stores and oracles for witnesses and counterexamples.
   --------------------------------------------------------------------- -/

def entryCancelled : ScheduleEntry :=
  { campaign_id := "c1", status := "cancelled", cancelled_at := some 3 }

def entryPendingC1 : ScheduleEntry :=
  { campaign_id := "c1", status := "pending" }

def schedulesTwoForC1 : List (String × ScheduleEntry) :=
  [("j1", entryCancelled), ("j2", entryPendingC1)]

def schedOnePending : List (String × ScheduleEntry) := [("j1", entryPendingC1)]

def oracleAllOk : ActivationOracle := {}

def oracleUpdateFails : ActivationOracle := { updateStatusError := some "boom" }

def recC1 : CampaignRecord :=
  { status := "PAUSED", campaign_name := "n1",
    meta_ids := { campaign_id := some "mc1" } }

def campaignsOne : List (String × CampaignRecord) := [("c1", recC1)]

/-- The schedules store holds, at key `k`, an entry marked failed with the
captured message and execution timestamp. -/
def markedFailedAt (schedules : List (String × ScheduleEntry))
    (k msg : String) (now : Nat) : Prop :=
  ∃ e, storeFind schedules k = some e ∧ e.status = "failed" ∧
    e.error = some msg ∧ e.executed_at = some now ∧ e.result = some "failed"

/-- The schedules store holds, at key `k`, an entry marked completed with
result success and an execution timestamp. -/
def markedCompletedAt (schedules : List (String × ScheduleEntry))
    (k : String) (now : Nat) : Prop :=
  ∃ e, storeFind schedules k = some e ∧ e.status = "completed" ∧
    e.executed_at = some now ∧ e.result = some "success"

def recSynced : CampaignRecord :=
  { status := "PAUSED", campaign_name := "n1", daily_budget := some 100 }

def fetchedSame : FetchedCampaign :=
  { name := some "n1", status := some "PAUSED", daily_budget := some 100,
    updated_time := some "t0" }

def transportThenOk : Nat → UploadOutcome
  | 0 => .transportError "connection timed out"
  | _ => .ok "v123"

def schedulesPendingThenCancelled : List (String × ScheduleEntry) :=
  [("j1", entryPendingC1), ("j2", entryCancelled)]

/- =====================================================================
   Theorems
   ===================================================================== -/

/- Store lemmas. -/

theorem storeFind_storeSet_self {α : Type} (s : List (String × α)) (k : String) (v : α) :
    storeFind (storeSet s k v) k = some v := by
  induction s with
  | nil => simp [storeSet, storeFind]
  | cons hd tl ih =>
      obtain ⟨k2, w⟩ := hd
      by_cases h : k2 = k
      · simp [storeSet, storeFind, h]
      · simp [storeSet, storeFind, h, ih]

theorem storeFind_storeSet_ne {α : Type} (s : List (String × α)) (k k2 : String) (v : α)
    (h : k2 ≠ k) : storeFind (storeSet s k v) k2 = storeFind s k2 := by
  induction s with
  | nil => simp [storeSet, storeFind, Ne.symm h]
  | cons hd tl ih =>
      obtain ⟨k3, w⟩ := hd
      by_cases h3 : k3 = k
      · subst h3
        simp [storeSet, storeFind, Ne.symm h]
      · simp [storeSet, storeFind, h3, ih]

theorem findEntry_mem {α : Type} (p : α → Bool) (s : List (String × α)) (k : String) (e : α)
    (h : findEntry p s = some (k, e)) : (k, e) ∈ s ∧ p e = true := by
  induction s with
  | nil => simp [findEntry] at h
  | cons hd tl ih =>
      obtain ⟨k2, w⟩ := hd
      by_cases hp : p w
      · simp [findEntry, hp] at h
        obtain ⟨h1, h2⟩ := h
        subst h1; subst h2
        exact ⟨List.mem_cons_self _ _, hp⟩
      · simp [findEntry, hp] at h
        obtain ⟨h1, h2⟩ := ih h
        exact ⟨List.mem_cons_of_mem _ h1, h2⟩

theorem storeFind_of_mem_nodup {α : Type} (s : List (String × α)) (k : String) (e : α)
    (hn : (s.map Prod.fst).Nodup) (h : (k, e) ∈ s) : storeFind s k = some e := by
  induction s with
  | nil => simp at h
  | cons hd tl ih =>
      obtain ⟨k2, w⟩ := hd
      simp only [List.map_cons, List.nodup_cons] at hn
      rcases List.mem_cons.mp h with h1 | h1
      · injection h1 with hk hw
        subst hk
        subst hw
        simp [storeFind]
      · have hne : k2 ≠ k := by
          intro hEq
          subst hEq
          exact hn.1 (List.mem_map_of_mem Prod.fst h1)
        simp [storeFind, hne, ih hn.2 h1]

theorem storeFind_isSome_of_mem {α : Type} (s : List (String × α)) (k : String) (e : α)
    (h : (k, e) ∈ s) : (storeFind s k).isSome := by
  induction s with
  | nil => simp at h
  | cons hd tl ih =>
      obtain ⟨k2, w⟩ := hd
      by_cases hk : k2 = k
      · simp [storeFind, hk]
      · rcases List.mem_cons.mp h with h1 | h1
        · cases h1; simp at hk
        · simp [storeFind, hk, ih h1]

/-- Helper: on pipeline failure the accumulated ids are exactly the ids of
the steps that succeeded before the first failing step. -/
theorem pipeline_error_ids_spec (o : StepOracle) (account_id : String)
    (msg : String) (ids : CreatedIds)
    (hfail : create_advantage_plus_campaign o account_id =
      .error (.campaignCreationError msg ids)) :
    ids.video_id =
      (if validate_account_id account_id then o.uploadVideo else none) ∧
    ids.creative_id =
      (if validate_account_id account_id ∧ o.uploadVideo.isSome then
        o.createCreative else none) ∧
    ids.campaign_id =
      (if validate_account_id account_id ∧ o.uploadVideo.isSome ∧
          o.createCreative.isSome then o.createCampaign else none) ∧
    ids.adset_id =
      (if validate_account_id account_id ∧ o.uploadVideo.isSome ∧
          o.createCreative.isSome ∧ o.createCampaign.isSome then
        o.createAdset else none) ∧
    ids.ad_id = none := by
  cases hv : validate_account_id account_id with
  | false =>
      simp [create_advantage_plus_campaign, hv] at hfail
      obtain ⟨hm, hi⟩ := hfail
      subst hi
      simp [hv]
  | true =>
    cases h1 : o.uploadVideo with
    | none =>
        simp [create_advantage_plus_campaign, hv, h1] at hfail
        obtain ⟨hm, hi⟩ := hfail
        subst hi
        simp [hv, h1]
    | some vid =>
      cases h2 : o.createCreative with
      | none =>
          simp [create_advantage_plus_campaign, hv, h1, h2] at hfail
          obtain ⟨hm, hi⟩ := hfail
          subst hi
          simp [hv, h1, h2]
      | some cr =>
        cases h3 : o.createCampaign with
        | none =>
            simp [create_advantage_plus_campaign, hv, h1, h2, h3] at hfail
            obtain ⟨hm, hi⟩ := hfail
            subst hi
            simp [hv, h1, h2, h3]
        | some cid =>
          cases h4 : o.createAdset with
          | none =>
              simp [create_advantage_plus_campaign, hv, h1, h2, h3, h4] at hfail
              obtain ⟨hm, hi⟩ := hfail
              subst hi
              simp [hv, h1, h2, h3, h4]
          | some asid =>
            cases h5 : o.createAd with
            | none =>
                simp [create_advantage_plus_campaign, hv, h1, h2, h3, h4, h5] at hfail
                obtain ⟨hm, hi⟩ := hfail
                subst hi
                simp [hv, h1, h2, h3, h4, h5]
            | some adid =>
                simp [create_advantage_plus_campaign, hv, h1, h2, h3, h4, h5] at hfail

/-- Helper: on pipeline failure the accumulated ids form a strict (not
complete) gap-free chain. -/
theorem pipeline_error_gapfree (o : StepOracle) (account_id : String)
    (msg : String) (ids : CreatedIds)
    (hfail : create_advantage_plus_campaign o account_id =
      .error (.campaignCreationError msg ids)) :
    gapFreeChain ids = true ∧ completeChain ids = false := by
  obtain ⟨e1, e2, e3, e4, e5⟩ := pipeline_error_ids_spec o account_id msg ids hfail
  constructor
  · simp only [gapFreeChain, e1, e2, e3, e4, e5]
    by_cases hv : validate_account_id account_id <;>
      cases h1 : o.uploadVideo <;>
      cases h2 : o.createCreative <;>
      cases h3 : o.createCampaign <;>
        simp [hv, h1, h2, h3]
  · simp [completeChain, e5]

/-- Helper: on pipeline success the returned ids are complete. -/
theorem pipeline_ok_complete (o : StepOracle) (account_id : String)
    (ids : CreatedIds)
    (hok : create_advantage_plus_campaign o account_id = .ok ids) :
    completeChain ids = true := by
  cases hv : validate_account_id account_id with
  | false => simp [create_advantage_plus_campaign, hv] at hok
  | true =>
    cases h1 : o.uploadVideo with
    | none => simp [create_advantage_plus_campaign, hv, h1] at hok
    | some vid =>
      cases h2 : o.createCreative with
      | none => simp [create_advantage_plus_campaign, hv, h1, h2] at hok
      | some cr =>
        cases h3 : o.createCampaign with
        | none => simp [create_advantage_plus_campaign, hv, h1, h2, h3] at hok
        | some cid =>
          cases h4 : o.createAdset with
          | none => simp [create_advantage_plus_campaign, hv, h1, h2, h3, h4] at hok
          | some asid =>
            cases h5 : o.createAd with
            | none =>
                simp [create_advantage_plus_campaign, hv, h1, h2, h3, h4, h5] at hok
            | some adid =>
                simp [create_advantage_plus_campaign, hv, h1, h2, h3, h4, h5] at hok
                subst hok
                simp [completeChain]

/-- Claim C1: for every oracle of remote-step outcomes and every account id,
the pipeline either returns a complete chain of all five ids (success case),
or fails with an error carrying a strict (not complete), gap-free chain in
the kind order asset < creative < campaign < ad-group < ad; the accumulated
ids never contain a later kind without all earlier kinds. -/
theorem pipeline_complete_or_gapfree_strict (o : StepOracle) (account_id : String)
    (ids : CreatedIds) (msg : String) :
    (create_advantage_plus_campaign o account_id = .ok ids →
      completeChain ids = true) ∧
    (create_advantage_plus_campaign o account_id =
        .error (.campaignCreationError msg ids) →
      gapFreeChain ids = true ∧ completeChain ids = false) :=
  ⟨pipeline_ok_complete o account_id ids,
   pipeline_error_gapfree o account_id msg ids⟩

/-- Witness for C1: a run failing at the campaign step yields the strict
gap-free chain holding exactly the asset and creative ids. -/
theorem pipeline_complete_or_gapfree_strict_witness :
    create_advantage_plus_campaign oracleFailAtCampaign "act_12" =
      .error (.campaignCreationError "Failed to create campaign" idsAssetCreative) ∧
    gapFreeChain idsAssetCreative = true ∧
    completeChain idsAssetCreative = false :=
  ⟨by rfl,
   (pipeline_complete_or_gapfree_strict oracleFailAtCampaign "act_12"
      idsAssetCreative "Failed to create campaign").2 (by rfl)⟩

/-- Claim C2: when any pipeline step fails, the request handler leaves the
campaigns store unchanged (no CampaignRecord persisted), the raised error
carries the accumulated ids, and those ids are exactly the ids of the steps
that succeeded before the failure. -/
theorem failed_run_persists_nothing_and_carries_exact_ids
    (campaigns : List (String × CampaignRecord)) (o : StepOracle)
    (account_id campaign_id campaign_name : String) (now : Nat)
    (msg : String) (ids : CreatedIds)
    (hfail : create_advantage_plus_campaign o account_id =
      .error (.campaignCreationError msg ids)) :
    (create_campaign_route campaigns o account_id campaign_id campaign_name now).1
      = campaigns ∧
    (create_campaign_route campaigns o account_id campaign_id campaign_name now).2
      = .error (.campaignCreationError msg ids) ∧
    ids.video_id =
      (if validate_account_id account_id then o.uploadVideo else none) ∧
    ids.creative_id =
      (if validate_account_id account_id ∧ o.uploadVideo.isSome then
        o.createCreative else none) ∧
    ids.campaign_id =
      (if validate_account_id account_id ∧ o.uploadVideo.isSome ∧
          o.createCreative.isSome then o.createCampaign else none) ∧
    ids.adset_id =
      (if validate_account_id account_id ∧ o.uploadVideo.isSome ∧
          o.createCreative.isSome ∧ o.createCampaign.isSome then
        o.createAdset else none) ∧
    ids.ad_id = none :=
  ⟨by simp [create_campaign_route, hfail],
   by simp [create_campaign_route, hfail],
   pipeline_error_ids_spec o account_id msg ids hfail⟩

/-- Witness for C2: the spec scenario — asset and creative succeed, the
campaign step fails; the store is untouched and the error carries exactly
the asset and creative ids. -/
theorem failed_run_witness :
    create_advantage_plus_campaign oracleFailAtCampaign "act_12" =
      .error (.campaignCreationError "Failed to create campaign" idsAssetCreative) ∧
    (create_campaign_route [] oracleFailAtCampaign "act_12" "c1" "n1" 0).1 = [] ∧
    idsAssetCreative.video_id = some "vid1" ∧
    idsAssetCreative.creative_id = some "cr1" ∧
    idsAssetCreative.campaign_id = none ∧ idsAssetCreative.ad_id = none :=
  ⟨by rfl,
   (failed_run_persists_nothing_and_carries_exact_ids [] oracleFailAtCampaign
      "act_12" "c1" "n1" 0 "Failed to create campaign" idsAssetCreative (by rfl)).1,
   by rfl, by rfl, by rfl, by rfl⟩

/- Activation-job helper lemmas. -/

theorem findScheduleFor_mem (schedules : List (String × ScheduleEntry))
    (campaign_id k : String)
    (h : findScheduleFor schedules campaign_id = some k) :
    ∃ e, findEntry (fun e2 => e2.campaign_id == campaign_id) schedules = some (k, e) := by
  unfold findScheduleFor at h
  cases hfe : findEntry (fun e2 => e2.campaign_id == campaign_id) schedules with
  | none => rw [hfe] at h; simp at h
  | some pr =>
      obtain ⟨k2, e2⟩ := pr
      rw [hfe] at h
      simp at h
      subst h
      exact ⟨e2, rfl⟩

theorem activationFailure_eq (o : ActivationOracle) (now : Nat)
    (campaigns : List (String × CampaignRecord))
    (schedules : List (String × ScheduleEntry)) (k msg : String)
    (hf : o.failureSaveError = none) (e : ScheduleEntry)
    (hfind : storeFind schedules k = some e) :
    activationFailure o now campaigns schedules (some k) msg =
      { campaigns := campaigns,
        schedules := storeSet schedules k (markFailedEntry e msg now),
        raised := some msg } := by
  simp [activationFailure, hfind, hf]

theorem completeSchedules_ok (o : ActivationOracle) (now : Nat)
    (campaigns : List (String × CampaignRecord))
    (schedules : List (String × ScheduleEntry)) (k : String)
    (hss : o.schedulesSaveError = none) (e : ScheduleEntry)
    (hfind : storeFind schedules k = some e) :
    completeSchedules o now campaigns schedules (some k) =
      { campaigns := campaigns,
        schedules := storeSet schedules k (markCompletedEntry e now),
        raised := none } := by
  simp [completeSchedules, hfind, hss]

theorem completeSchedules_fail (o : ActivationOracle) (now : Nat)
    (campaigns : List (String × CampaignRecord))
    (schedules : List (String × ScheduleEntry)) (k m : String)
    (hss : o.schedulesSaveError = some m) (hf : o.failureSaveError = none)
    (e : ScheduleEntry) (hfind : storeFind schedules k = some e) :
    completeSchedules o now campaigns schedules (some k) =
      { campaigns := campaigns,
        schedules := storeSet schedules k (markFailedEntry e m now),
        raised := some m } := by
  have h2 := activationFailure_eq o now campaigns schedules k m hf e hfind
  simp [completeSchedules, hfind, hss, h2]

theorem activationFailure_preserves_other (o : ActivationOracle) (now : Nat)
    (campaigns : List (String × CampaignRecord))
    (schedules : List (String × ScheduleEntry)) (sk : Option String) (msg k : String)
    (h : ∀ k1, sk = some k1 → k ≠ k1) :
    storeFind (activationFailure o now campaigns schedules sk msg).schedules k
      = storeFind schedules k := by
  cases sk with
  | none => simp [activationFailure]
  | some k1 =>
    have hne := h k1 rfl
    cases hfind : storeFind schedules k1 with
    | none => simp [activationFailure, hfind]
    | some e =>
      cases hfe : o.failureSaveError with
      | none => simp [activationFailure, hfind, hfe, storeFind_storeSet_ne _ _ _ _ hne]
      | some m => simp [activationFailure, hfind, hfe]

theorem completeSchedules_preserves_other (o : ActivationOracle) (now : Nat)
    (campaigns : List (String × CampaignRecord))
    (schedules : List (String × ScheduleEntry)) (sk : Option String) (k : String)
    (h : ∀ k1, sk = some k1 → k ≠ k1) :
    storeFind (completeSchedules o now campaigns schedules sk).schedules k
      = storeFind schedules k := by
  cases sk with
  | none => simp [completeSchedules]
  | some k1 =>
    have hne := h k1 rfl
    cases hfind : storeFind schedules k1 with
    | none => simp [completeSchedules, hfind]
    | some e =>
      cases hse : o.schedulesSaveError with
      | none => simp [completeSchedules, hfind, hse, storeFind_storeSet_ne _ _ _ _ hne]
      | some m =>
          simp only [completeSchedules, hfind, hse]
          exact activationFailure_preserves_other o now campaigns schedules (some k1) m k h

theorem activate_job_preserves_other (o : ActivationOracle) (now : Nat)
    (campaigns : List (String × CampaignRecord))
    (schedules : List (String × ScheduleEntry)) (campaign_id mcid k : String)
    (h : ∀ k1 e1, findEntry (fun e2 => e2.campaign_id == campaign_id) schedules
        = some (k1, e1) → k ≠ k1) :
    storeFind (activate_campaign_job o now campaigns schedules campaign_id mcid).schedules k
      = storeFind schedules k := by
  have hsk : ∀ k1, findScheduleFor schedules campaign_id = some k1 → k ≠ k1 := by
    intro k1 h1
    obtain ⟨e1, hfe⟩ := findScheduleFor_mem schedules campaign_id k1 h1
    exact h k1 e1 hfe
  unfold activate_campaign_job
  cases hu : o.updateStatusError with
  | some m => exact activationFailure_preserves_other o now campaigns schedules _ m k hsk
  | none =>
    cases hs : o.syncResult with
    | error m => exact activationFailure_preserves_other o now campaigns schedules _ m k hsk
    | ok d =>
      cases hc : storeFind campaigns campaign_id with
      | some record =>
        cases hcs : o.campaignsSaveError with
        | some m => exact activationFailure_preserves_other o now campaigns schedules _ m k hsk
        | none => exact completeSchedules_preserves_other o now _ schedules _ k hsk
      | none => exact completeSchedules_preserves_other o now campaigns schedules _ k hsk

/-- Counterexample to C3: with a cancelled (terminal) schedule entry and a
later pending entry for the same campaign, the activation task locates the
first matching entry with no status filter and overwrites the cancelled
entry to completed — a terminal record changes status again. -/
theorem job_overwrites_cancelled_schedule :
    entryCancelled.status = "cancelled" ∧
    entryPendingC1.status = "pending" ∧
    storeFind
      (activate_campaign_job oracleAllOk 9 [] schedulesTwoForC1 "c1" "m1").schedules "j1"
      = some (markCompletedEntry entryCancelled 9) ∧
    (markCompletedEntry entryCancelled 9).status = "completed" := by
  exact ⟨rfl, rfl, rfl, rfl⟩

/-- Claim C3 (amended): cancellation only moves a pending entry to
cancelled; the activation task rewrites the first schedule entry whose
campaign id matches, regardless of that entry's status; consequently a
terminal entry's status is never changed again provided the first
campaign-matching entry is the pending one (in particular when at most one
schedule entry exists per campaign) — without that proviso a terminal
entry can be overwritten (see the counterexample). -/
theorem terminal_status_preserved_when_first_match_pending
    (schedules : List (String × ScheduleEntry)) (campaign_id : String)
    (o : ActivationOracle) (now nowC : Nat) (cancelOk : Bool)
    (campaigns : List (String × CampaignRecord)) (mcid : String)
    (hnd : (schedules.map Prod.fst).Nodup)
    (hfirst : ((findEntry (fun e2 => e2.campaign_id == campaign_id) schedules).all
        (fun pr => pr.2.status == "pending")) = true)
    (k : String) (e : ScheduleEntry)
    (hk : storeFind schedules k = some e)
    (hterm : e.status = "completed" ∨ e.status = "failed" ∨ e.status = "cancelled") :
    storeFind (cancel_schedule_route schedules campaign_id cancelOk nowC).1 k = some e ∧
    storeFind
      (activate_campaign_job o now campaigns schedules campaign_id mcid).schedules k
      = some e := by
  have hpend : ∀ k1 e1,
      findEntry (fun e2 => e2.campaign_id == campaign_id) schedules = some (k1, e1) →
      e1.status = "pending" := by
    intro k1 e1 hfe
    rw [hfe] at hfirst
    simp [Option.all] at hfirst
    exact hfirst
  have hne : ∀ k1 e1,
      findEntry (fun e2 => e2.campaign_id == campaign_id) schedules = some (k1, e1) →
      k ≠ k1 := by
    intro k1 e1 hfe hkk
    subst hkk
    obtain ⟨hmem, _⟩ := findEntry_mem _ _ _ _ hfe
    have := storeFind_of_mem_nodup _ _ _ hnd hmem
    rw [hk] at this
    have he : e = e1 := by injection this
    have hp := hpend _ _ hfe
    rw [← he] at hp
    rcases hterm with ht | ht | ht <;> rw [ht] at hp <;> exact absurd hp (by decide)
  constructor
  · cases hfe : findEntry
        (fun e2 => e2.campaign_id == campaign_id && e2.status == "pending") schedules with
    | none => simp [cancel_schedule_route, hfe, hk]
    | some pr =>
        obtain ⟨k0, e0⟩ := pr
        obtain ⟨hmem, hpred⟩ := findEntry_mem _ _ _ _ hfe
        have hkne : k ≠ k0 := by
          intro hkk
          subst hkk
          have := storeFind_of_mem_nodup _ _ _ hnd hmem
          rw [hk] at this
          have he : e = e0 := by injection this
          have hp : e0.status == "pending" := ((Bool.and_eq_true _ _).mp hpred).2
          have hp2 : e0.status = "pending" := by simpa using hp
          rw [← he] at hp2
          rcases hterm with ht | ht | ht <;> rw [ht] at hp2 <;> exact absurd hp2 (by decide)
        cases cancelOk with
        | true =>
            simp [cancel_schedule_route, hfe, storeFind_storeSet_ne _ _ _ _ hkne, hk]
        | false => simp [cancel_schedule_route, hfe, hk]
  · rw [activate_job_preserves_other o now campaigns schedules campaign_id mcid k hne]
    exact hk

/-- Witness for C3 (amended): a store whose first entry for the campaign is
the pending one — the terminal (cancelled) entry of another job is left
untouched by both cancellation and the activation task. -/
theorem terminal_status_preserved_witness :
    storeFind schedulesPendingThenCancelled "j2" = some entryCancelled ∧
    entryCancelled.status = "cancelled" ∧
    storeFind (cancel_schedule_route schedulesPendingThenCancelled "c1" true 4).1 "j2"
      = some entryCancelled ∧
    storeFind (activate_campaign_job oracleAllOk 9 [] schedulesPendingThenCancelled
        "c1" "m1").schedules "j2"
      = some entryCancelled := by
  have h := terminal_status_preserved_when_first_match_pending
    schedulesPendingThenCancelled "c1" oracleAllOk 9 4 true [] "m1"
    (by decide) (by rfl) "j2" entryCancelled (by rfl) (Or.inr (Or.inr rfl))
  exact ⟨rfl, rfl, h.1, h.2⟩

/-- Claim C5: for every activation-task run that finds the campaign's
schedule entry (and whose failure-path save is not itself broken), an
exception in any step of the sequence — remote status update, remote sync,
campaign-record persistence, or schedule persistence — leaves the entry
marked failed with the captured message and an execution timestamp, while
an exception-free run leaves it marked completed with an execution
timestamp. -/
theorem activation_marks_failed_or_completed
    (o : ActivationOracle) (now : Nat)
    (campaigns : List (String × CampaignRecord))
    (schedules : List (String × ScheduleEntry)) (campaign_id mcid k : String)
    (hk : findScheduleFor schedules campaign_id = some k)
    (hf : o.failureSaveError = none) :
    (∀ msg,
      (o.updateStatusError = some msg ∨
       (o.updateStatusError = none ∧ o.syncResult = .error msg) ∨
       (o.updateStatusError = none ∧ (∃ d, o.syncResult = .ok d) ∧
         (storeFind campaigns campaign_id).isSome ∧
         o.campaignsSaveError = some msg) ∨
       (o.updateStatusError = none ∧ (∃ d, o.syncResult = .ok d) ∧
         ((storeFind campaigns campaign_id).isSome → o.campaignsSaveError = none) ∧
         o.schedulesSaveError = some msg)) →
      markedFailedAt
        (activate_campaign_job o now campaigns schedules campaign_id mcid).schedules
        k msg now) ∧
    ((o.updateStatusError = none ∧ (∃ d, o.syncResult = .ok d) ∧
      ((storeFind campaigns campaign_id).isSome → o.campaignsSaveError = none) ∧
      o.schedulesSaveError = none) →
      markedCompletedAt
        (activate_campaign_job o now campaigns schedules campaign_id mcid).schedules
        k now) := by
  obtain ⟨e1, hfe⟩ := findScheduleFor_mem schedules campaign_id k hk
  obtain ⟨hmem, hpred⟩ := findEntry_mem _ _ _ _ hfe
  obtain ⟨e0, he0⟩ := Option.isSome_iff_exists.mp (storeFind_isSome_of_mem _ _ _ hmem)
  constructor
  · intro msg hcond
    rcases hcond with hu | ⟨hu, hs⟩ | ⟨hu, ⟨d, hs⟩, hcsome, hcs⟩ | ⟨hu, ⟨d, hs⟩, himp, hss⟩
    · simp only [activate_campaign_job, hk, hu]
      rw [activationFailure_eq o now campaigns schedules k msg hf e0 he0]
      exact ⟨markFailedEntry e0 msg now, storeFind_storeSet_self _ _ _, rfl, rfl, rfl, rfl⟩
    · simp only [activate_campaign_job, hk, hu, hs]
      rw [activationFailure_eq o now campaigns schedules k msg hf e0 he0]
      exact ⟨markFailedEntry e0 msg now, storeFind_storeSet_self _ _ _, rfl, rfl, rfl, rfl⟩
    · obtain ⟨record, hrec⟩ := Option.isSome_iff_exists.mp hcsome
      simp only [activate_campaign_job, hk, hu, hs, hrec, hcs]
      rw [activationFailure_eq o now campaigns schedules k msg hf e0 he0]
      exact ⟨markFailedEntry e0 msg now, storeFind_storeSet_self _ _ _, rfl, rfl, rfl, rfl⟩
    · cases hc2 : storeFind campaigns campaign_id with
      | some r =>
          have hcs2 : o.campaignsSaveError = none := himp (by simp [hc2])
          simp only [activate_campaign_job, hk, hu, hs, hc2, hcs2]
          rw [completeSchedules_fail o now _ schedules k msg hss hf e0 he0]
          exact ⟨markFailedEntry e0 msg now, storeFind_storeSet_self _ _ _,
            rfl, rfl, rfl, rfl⟩
      | none =>
          simp only [activate_campaign_job, hk, hu, hs, hc2]
          rw [completeSchedules_fail o now campaigns schedules k msg hss hf e0 he0]
          exact ⟨markFailedEntry e0 msg now, storeFind_storeSet_self _ _ _,
            rfl, rfl, rfl, rfl⟩
  · rintro ⟨hu, ⟨d, hs⟩, himp, hss⟩
    cases hc2 : storeFind campaigns campaign_id with
    | some r =>
        have hcs2 : o.campaignsSaveError = none := himp (by simp [hc2])
        simp only [activate_campaign_job, hk, hu, hs, hc2, hcs2]
        rw [completeSchedules_ok o now _ schedules k hss e0 he0]
        exact ⟨markCompletedEntry e0 now, storeFind_storeSet_self _ _ _, rfl, rfl, rfl⟩
    | none =>
        simp only [activate_campaign_job, hk, hu, hs, hc2]
        rw [completeSchedules_ok o now campaigns schedules k hss e0 he0]
        exact ⟨markCompletedEntry e0 now, storeFind_storeSet_self _ _ _, rfl, rfl, rfl⟩

/-- Witness for C5: the remote status update fails with message boom; the
pending schedule entry ends marked failed with that message. -/
theorem activation_marks_failed_witness :
    findScheduleFor schedOnePending "c1" = some "j1" ∧
    oracleUpdateFails.failureSaveError = none ∧
    markedFailedAt
      (activate_campaign_job oracleUpdateFails 5 [] schedOnePending "c1" "mc1").schedules
      "j1" "boom" 5 := by
  refine ⟨rfl, rfl, ?_⟩
  exact (activation_marks_failed_or_completed oracleUpdateFails 5 [] schedOnePending
    "c1" "mc1" "j1" rfl rfl).1 "boom" (Or.inl rfl)

/-- Claim C10: when the campaign id is absent from the campaigns store, the
activation task still completes: the campaigns store is unchanged (the
record write is silently skipped), nothing is raised, and the matching
schedule entry is marked completed with result success. -/
theorem job_completed_despite_missing_campaign
    (o : ActivationOracle) (now : Nat)
    (campaigns : List (String × CampaignRecord))
    (schedules : List (String × ScheduleEntry)) (campaign_id mcid k : String)
    (habsent : storeFind campaigns campaign_id = none)
    (hk : findScheduleFor schedules campaign_id = some k)
    (hu : o.updateStatusError = none) (hs : ∃ d, o.syncResult = .ok d)
    (hss : o.schedulesSaveError = none) :
    (activate_campaign_job o now campaigns schedules campaign_id mcid).campaigns
      = campaigns ∧
    (activate_campaign_job o now campaigns schedules campaign_id mcid).raised = none ∧
    markedCompletedAt
      (activate_campaign_job o now campaigns schedules campaign_id mcid).schedules
      k now := by
  obtain ⟨d, hsd⟩ := hs
  obtain ⟨e1, hfe⟩ := findScheduleFor_mem schedules campaign_id k hk
  obtain ⟨hmem, hpred⟩ := findEntry_mem _ _ _ _ hfe
  obtain ⟨e0, he0⟩ := Option.isSome_iff_exists.mp (storeFind_isSome_of_mem _ _ _ hmem)
  have hrw : activate_campaign_job o now campaigns schedules campaign_id mcid =
      { campaigns := campaigns,
        schedules := storeSet schedules k (markCompletedEntry e0 now),
        raised := none } := by
    simp only [activate_campaign_job, hk, hu, hsd, habsent]
    exact completeSchedules_ok o now campaigns schedules k hss e0 he0
  rw [hrw]
  exact ⟨rfl, rfl,
    ⟨markCompletedEntry e0 now, storeFind_storeSet_self _ _ _, rfl, rfl, rfl⟩⟩

/-- Witness for C10: campaigns store empty, all remote calls succeed — the
job run changes no campaign record, raises nothing, and marks the schedule
entry completed. -/
theorem job_completed_despite_missing_campaign_witness :
    storeFind ([] : List (String × CampaignRecord)) "c1" = none ∧
    (activate_campaign_job oracleAllOk 7 [] schedOnePending "c1" "mc1").campaigns
      = [] ∧
    (activate_campaign_job oracleAllOk 7 [] schedOnePending "c1" "mc1").raised
      = none ∧
    markedCompletedAt
      (activate_campaign_job oracleAllOk 7 [] schedOnePending "c1" "mc1").schedules
      "j1" 7 := by
  have h := job_completed_despite_missing_campaign oracleAllOk 7 [] schedOnePending
    "c1" "mc1" "j1" rfl rfl rfl ⟨({} : FetchedCampaign), rfl⟩ rfl
  exact ⟨rfl, h.1, h.2.1, h.2.2⟩

/-- Counterexample to C4: a timezone-aware activateAt strictly in the
future (its absolute instant is after now interpreted in the system's +8
civil zone) does not yield a persisted PENDING job and an armed timer:
the naive/aware comparison raises, the request fails with an internal
error, and both stores are unchanged. -/
theorem schedule_route_aware_future_not_persisted :
    pyCompareLE (.aware 1000000 480) (localizeSingapore (.naive 0)) = some false ∧
    schedule_campaign_route campaignsOne [] [] "c1" (.aware 1000000 480) 0 0 "jx"
      = ([], [],
         .error (.serverError "cannot compare offset-naive and offset-aware datetimes")) :=
  ⟨rfl, rfl⟩

/-- Claim C4 (amended): for a naive activateAt, the schedule request fails
with the SchedulingError rejection and leaves the schedules store and the
timer table unchanged when activateAt is not strictly after now, and
otherwise persists a pending ScheduledJob and arms a timer at the instant
localized to the fixed +8 offset; a timezone-aware activateAt always fails
(naive/aware comparison raises) with both stores unchanged. -/
theorem schedule_gate_naive_dichotomy
    (campaigns : List (String × CampaignRecord))
    (schedules : List (String × ScheduleEntry)) (timers : List (String × ArmedJob))
    (campaign_id job_id : String) (record : CampaignRecord)
    (t now : Int) (nowUtc : Nat)
    (hc : storeFind campaigns campaign_id = some record) :
    (t ≤ now →
      schedule_campaign_route campaigns schedules timers campaign_id (.naive t)
          now nowUtc job_id
        = (schedules, timers,
           .error (.badRequest "Scheduled activation time must be in the future"))) ∧
    (now < t →
      storeFind (schedule_campaign_route campaigns schedules timers campaign_id
          (.naive t) now nowUtc job_id).1 job_id
        = some { campaign_id := campaign_id,
                 meta_campaign_id := record.meta_ids.campaign_id.getD "",
                 scheduled_time := .naive t, status := "pending",
                 created_at := nowUtc, executed_at := none, error := none } ∧
      storeFind (schedule_campaign_route campaigns schedules timers campaign_id
          (.naive t) now nowUtc job_id).2.1 job_id
        = some { campaign_id := campaign_id,
                 meta_campaign_id := record.meta_ids.campaign_id.getD "",
                 run_date := .aware t singaporeOffset } ∧
      (schedule_campaign_route campaigns schedules timers campaign_id
          (.naive t) now nowUtc job_id).2.2 = .ok job_id) ∧
    (∀ off : Int,
      schedule_campaign_route campaigns schedules timers campaign_id (.aware t off)
          now nowUtc job_id
        = (schedules, timers,
           .error (.serverError "cannot compare offset-naive and offset-aware datetimes"))) := by
  refine ⟨?_, ?_, ?_⟩
  · intro h
    simp [schedule_campaign_route, hc, pyCompareLE, h]
  · intro h
    have hnle : ¬ t ≤ now := not_le.mpr h
    refine ⟨?_, ?_, ?_⟩ <;>
      simp [schedule_campaign_route, hc, pyCompareLE, hnle,
        schedule_campaign_activation, localizeSingapore, storeFind_storeSet_self]
  · intro off
    simp [schedule_campaign_route, hc, pyCompareLE]

/-- Witness for C4 (amended): with one stored campaign — a past naive
instant is rejected with the store untouched; a future naive instant
persists the pending entry and succeeds. -/
theorem schedule_gate_naive_dichotomy_witness :
    storeFind campaignsOne "c1" = some recC1 ∧
    schedule_campaign_route campaignsOne [] [] "c1" (.naive 0) 0 2 "j9"
      = ([], [],
         .error (.badRequest "Scheduled activation time must be in the future")) ∧
    storeFind (schedule_campaign_route campaignsOne [] [] "c1" (.naive 10) 0 2 "j9").1 "j9"
      = some { campaign_id := "c1",
               meta_campaign_id := recC1.meta_ids.campaign_id.getD "",
               scheduled_time := .naive 10, status := "pending",
               created_at := 2, executed_at := none, error := none } ∧
    (schedule_campaign_route campaignsOne [] [] "c1" (.naive 10) 0 2 "j9").2.2
      = .ok "j9" := by
  have h0 := schedule_gate_naive_dichotomy campaignsOne [] [] "c1" "j9" recC1 0 0 2 rfl
  have h1 := schedule_gate_naive_dichotomy campaignsOne [] [] "c1" "j9" recC1 10 0 2 rfl
  exact ⟨rfl, h0.1 (by decide), (h1.2.1 (by decide)).1, (h1.2.1 (by decide)).2.2⟩

/-- Counterexample to C9: a timezone-aware instant strictly in the future
is not honored by the schedule request — the request fails with an
internal error and nothing is persisted or armed. -/
theorem aware_future_instant_schedule_fails :
    pyCompareLE (.aware 500000 0) (localizeSingapore (.naive 0)) = some false ∧
    (schedule_campaign_route campaignsOne [] [] "c1" (.aware 500000 0) 0 0 "jy").2.2
      = .error (.serverError "cannot compare offset-naive and offset-aware datetimes") ∧
    storeFind
      (schedule_campaign_route campaignsOne [] [] "c1" (.aware 500000 0) 0 0 "jy").1 "jy"
      = none ∧
    storeFind
      (schedule_campaign_route campaignsOne [] [] "c1" (.aware 500000 0) 0 0 "jy").2.1 "jy"
      = none :=
  ⟨rfl, rfl, rfl, rfl⟩

/-- Claim C9 (amended): a naive activation instant is localized to the
fixed +8 civil offset, and the scheduler manager honors a timezone-aware
instant exactly as given when arming the timer; but the schedule route's
future check compares activateAt against a naive now, so a schedule
request carrying any timezone-aware instant fails with the stores
unchanged rather than succeeding. -/
theorem naive_localized_aware_not_honored_by_route
    (t off now : Int) (timers : List (String × ArmedJob)) (job_id cid mcid : String) :
    localizeSingapore (.naive t) = .aware t singaporeOffset ∧
    localizeSingapore (.aware t off) = .aware t off ∧
    storeFind (schedule_campaign_activation timers job_id cid mcid (.naive t)).1 job_id
      = some { campaign_id := cid, meta_campaign_id := mcid,
               run_date := .aware t singaporeOffset } ∧
    storeFind (schedule_campaign_activation timers job_id cid mcid (.aware t off)).1 job_id
      = some { campaign_id := cid, meta_campaign_id := mcid,
               run_date := .aware t off } ∧
    (∀ (campaigns : List (String × CampaignRecord))
       (schedules : List (String × ScheduleEntry))
       (record : CampaignRecord) (nowUtc : Nat),
      storeFind campaigns cid = some record →
      schedule_campaign_route campaigns schedules timers cid (.aware t off)
          now nowUtc job_id
        = (schedules, timers,
           .error (.serverError "cannot compare offset-naive and offset-aware datetimes"))) := by
  refine ⟨rfl, rfl, ?_, ?_, ?_⟩
  · simp [schedule_campaign_activation, localizeSingapore, storeFind_storeSet_self]
  · simp [schedule_campaign_activation, localizeSingapore, storeFind_storeSet_self]
  · intro campaigns schedules record nowUtc hc
    simp [schedule_campaign_route, hc, pyCompareLE]

/-- Witness for C9 (amended): localization attaches the +8 offset to a
naive instant, the manager arms an aware instant exactly as given, and the
route rejects that aware instant with the stores unchanged. -/
theorem naive_localized_aware_not_honored_witness :
    localizeSingapore (.naive 60) = .aware 60 singaporeOffset ∧
    storeFind (schedule_campaign_activation [] "jz" "c1" "mc1" (.aware 60 0)).1 "jz"
      = some { campaign_id := "c1", meta_campaign_id := "mc1",
               run_date := .aware 60 0 } ∧
    schedule_campaign_route campaignsOne [] [] "c1" (.aware 60 0) 0 3 "jz"
      = ([], [],
         .error (.serverError "cannot compare offset-naive and offset-aware datetimes")) := by
  have h := naive_localized_aware_not_honored_by_route 60 0 0 [] "jz" "c1" "mc1"
  exact ⟨h.1, h.2.2.2.1, h.2.2.2.2 campaignsOne [] recC1 3 rfl⟩

/-- Counterexample to C6: with the remote status and daily budget equal to
the locally stored values, sync still returns a changes set containing the
status and daily-budget fields (and the unchanged name), so the returned
set is not the subset of differing fields. -/
theorem sync_changes_include_unchanged_fields :
    recSynced.status = "PAUSED" ∧ recSynced.daily_budget = some 100 ∧
    fetchedSame.status = some "PAUSED" ∧ fetchedSame.daily_budget = some 100 ∧
    (sync_campaign_route [("c1", recSynced)] "c1" (.ok fetchedSame) 5).2
      = .ok { status := "PAUSED", campaign_name := "n1", last_synced := 5,
              daily_budget := some 100 } :=
  ⟨rfl, rfl, rfl, rfl, rfl⟩

/-- Claim C6 (amended): sync applies the fetched status and name (falling
back to the stored values when the response omits them), applies the
fetched daily budget whenever the response carries one, stamps a fresh
last-synced time, persists the record, and returns exactly this applied
update set — irrespective of whether the values differ from the stored
record; the fetched updated-time is not applied, and all other record
fields are untouched. -/
theorem sync_applies_and_returns_fetched_fields
    (campaigns : List (String × CampaignRecord)) (campaign_id : String)
    (record : CampaignRecord) (d : FetchedCampaign) (now : Nat)
    (hc : storeFind campaigns campaign_id = some record) :
    ∃ u r2,
      sync_campaign_route campaigns campaign_id (.ok d) now
        = (storeSet campaigns campaign_id r2, .ok u) ∧
      storeFind (sync_campaign_route campaigns campaign_id (.ok d) now).1 campaign_id
        = some r2 ∧
      u.status = d.status.getD record.status ∧
      u.campaign_name = d.name.getD record.campaign_name ∧
      u.last_synced = now ∧
      u.daily_budget = d.daily_budget ∧
      r2.status = u.status ∧
      r2.campaign_name = u.campaign_name ∧
      r2.last_synced = some now ∧
      r2.daily_budget = (match d.daily_budget with
        | some b => some b
        | none => record.daily_budget) ∧
      r2.meta_ids = record.meta_ids ∧
      r2.created_at = record.created_at ∧
      r2.activated_at = record.activated_at := by
  refine ⟨{ status := d.status.getD record.status,
            campaign_name := d.name.getD record.campaign_name,
            last_synced := now, daily_budget := d.daily_budget },
          { record with
            status := d.status.getD record.status,
            campaign_name := d.name.getD record.campaign_name,
            last_synced := some now,
            daily_budget := match d.daily_budget with
              | some b => some b
              | none => record.daily_budget },
          ?_, ?_, rfl, rfl, rfl, rfl, rfl, rfl, rfl, rfl, rfl, rfl, rfl⟩
  · simp [sync_campaign_route, hc]
  · simp [sync_campaign_route, hc, storeFind_storeSet_self]

/-- Witness for C6 (amended): the concrete equal-valued sync run, with the
theorem applied at it. -/
theorem sync_applies_and_returns_fetched_fields_witness :
    storeFind [("c1", recSynced)] "c1" = some recSynced ∧
    (∃ u r2,
      sync_campaign_route [("c1", recSynced)] "c1" (.ok fetchedSame) 5
        = (storeSet [("c1", recSynced)] "c1" r2, .ok u) ∧
      storeFind (sync_campaign_route [("c1", recSynced)] "c1" (.ok fetchedSame) 5).1 "c1"
        = some r2 ∧
      u.status = fetchedSame.status.getD recSynced.status ∧
      u.campaign_name = fetchedSame.name.getD recSynced.campaign_name ∧
      u.last_synced = 5 ∧
      u.daily_budget = fetchedSame.daily_budget ∧
      r2.status = u.status ∧
      r2.campaign_name = u.campaign_name ∧
      r2.last_synced = some 5 ∧
      r2.daily_budget = (match fetchedSame.daily_budget with
        | some b => some b
        | none => recSynced.daily_budget) ∧
      r2.meta_ids = recSynced.meta_ids ∧
      r2.created_at = recSynced.created_at ∧
      r2.activated_at = recSynced.activated_at) :=
  ⟨rfl, sync_applies_and_returns_fetched_fields [("c1", recSynced)] "c1"
    recSynced fetchedSame 5 rfl⟩

/-- Claim C7 (code behavior at the failing input): when the first upload
attempt fails with a transport error, the call ends after exactly one
attempt with the wrapped MetaAPIError — the retry policy would retry a
raw RequestException but never sees one, because the body wraps every
failure as MetaAPIError before the decorator inspects it. -/
theorem upload_transport_error_not_retried :
    upload_video transportThenOk
      = (1, .error (.metaAPIError "Video upload failed: connection timed out")) ∧
    upload_video_body (transportThenOk 0)
      = .error (.metaAPIError "Video upload failed: connection timed out") ∧
    retryOnRequestException (.requestException "connection timed out") = true ∧
    retryOnRequestException (.metaAPIError "Video upload failed: connection timed out")
      = false :=
  ⟨rfl, rfl, rfl, rfl⟩

/-- Claim C8: a status outside the ACTIVE/PAUSED/ARCHIVED whitelist is
rejected with an error before any remote call is issued; a whitelisted
status is never rejected before the call (the remote call is issued). -/
theorem update_status_precall_gate (status : String) (remote : Except String Unit) :
    (status ∉ valid_statuses →
      update_campaign_status_client status remote
        = (false, .error (.metaAPIError ("Invalid status: " ++ status ++
            ". Must be ACTIVE, PAUSED, or ARCHIVED")))) ∧
    (status ∈ valid_statuses →
      (update_campaign_status_client status remote).1 = true) := by
  constructor
  · intro h
    simp [update_campaign_status_client, h]
  · intro h
    cases remote <;> simp [update_campaign_status_client, h]

/-- Witness for C8: DELETED is rejected before the call; ACTIVE issues the
remote call. -/
theorem update_status_precall_gate_witness :
    update_campaign_status_client "DELETED" (.ok ())
      = (false, .error (.metaAPIError ("Invalid status: " ++ "DELETED" ++
          ". Must be ACTIVE, PAUSED, or ARCHIVED"))) ∧
    (update_campaign_status_client "ACTIVE" (.ok ())).1 = true :=
  ⟨(update_status_precall_gate "DELETED" (.ok ())).1 (by decide),
   (update_status_precall_gate "ACTIVE" (.ok ())).2 (by decide)⟩
